import Mathlib

/-!
Verification development for the visa-appointment automation backend
(`app.py`, `email_sender.py`, `utils.py`).

The embedding models the scheduler (`scan_and_process_users`,
`process_user`), the per-user automation run (`run_automation`,
`book_appointment`, `solve_captcha_with_retry`), the injected calendar
patch, the status-update endpoint and the email sender, as pure Lean
functions over explicit oracles for the browser driver, the CAPTCHA
solver and the environment.
-/

namespace VisaBot

/-! ## Scheduler data model (`scan_and_process_users`, app.py lines 531-580) -/

/-- A persisted user row as seen by the scanner.  `lastChecked` is
`none` when the column is absent or empty (Python falsy), `some none`
when present but unparsable (every `datetime.fromisoformat` branch
raises `ValueError`), and `some (some t)` when it parses to time `t`
(an integer timestamp in seconds). -/
structure UserRec where
  id : Nat
  status : Int
  lastChecked : Option (Option Int)
deriving Repr, DecidableEq

/-- The scheduler-visible mutable state: the in-memory `active_tasks`
keys, the sequence of user ids handed to `executor.submit` this far,
and the ids for which a parse warning was logged. -/
structure SchedState where
  activeTasks : List Nat
  submitted : List Nat
  warnings : List Nat
deriving Repr, DecidableEq

/-- One iteration of the `for user in response.data` loop of
`scan_and_process_users`: skip when the id is in `active_tasks`;
otherwise decide on `last_checked` (absent: submit; unparsable: log a
warning and fall through to submit; parsed `t`: skip when
`now - t < retryInterval`, else submit).  Note the loop never writes
`activeTasks`: the only mutation is `executor.submit`. -/
def scanBody (now retryInterval : Int) (s : SchedState) (u : UserRec) : SchedState :=
  if s.activeTasks.contains u.id then s
  else
    match u.lastChecked with
    | none => { s with submitted := s.submitted ++ [u.id] }
    | some none =>
        { s with warnings := s.warnings ++ [u.id],
                 submitted := s.submitted ++ [u.id] }
    | some (some t) =>
        if now - t < retryInterval then s
        else { s with submitted := s.submitted ++ [u.id] }

/-- The scanner loop over the rows returned by the query. -/
def scanLoop (now retryInterval : Int) : SchedState → List UserRec → SchedState
  | s, [] => s
  | s, u :: rest => scanLoop now retryInterval (scanBody now retryInterval s u) rest

/-- `scan_and_process_users`: the database query keeps only rows with
`status == 0` (`.eq('status', 0)`), then the loop body runs on each. -/
def scanAndProcessUsers (db : List UserRec) (now retryInterval : Int)
    (s : SchedState) : SchedState :=
  scanLoop now retryInterval s (db.filter (fun u => u.status == 0))

/-- Modelled from the spec: the eligibility condition of section 4.4,
"eligible if `last_checked` is absent, unparsable ... or older than
`RETRY_INTERVAL` seconds ago", with the boundary taken inclusively
(`retryInterval ≤ now - t`) as the code's `<`-skip makes it.  Used to
compare the scanner loop against the spec's selection rule. -/
def specEligible (active : List Nat) (now retryInterval : Int) (u : UserRec) : Bool :=
  !active.contains u.id &&
    (match u.lastChecked with
     | none => true
     | some none => true
     | some (some t) => decide (retryInterval ≤ now - t))

/-- Modelled from the spec: the condition under which the scan logs a
parse warning for a row (reached the parse attempt and it failed). -/
def specWarned (active : List Nat) (u : UserRec) : Bool :=
  !active.contains u.id &&
    (match u.lastChecked with
     | some none => true
     | _ => false)

lemma scanBody_activeTasks (now retryInterval : Int) (s : SchedState) (u : UserRec) :
    (scanBody now retryInterval s u).activeTasks = s.activeTasks := by
  unfold scanBody
  split
  · rfl
  · split <;> first | rfl | (split <;> rfl)

lemma scanLoop_activeTasks (now retryInterval : Int) (us : List UserRec)
    (s : SchedState) :
    (scanLoop now retryInterval s us).activeTasks = s.activeTasks := by
  induction us generalizing s with
  | nil => rfl
  | cons u rest ih =>
      rw [scanLoop, ih, scanBody_activeTasks]

lemma scanBody_submitted (now retryInterval : Int) (s : SchedState) (u : UserRec) :
    (scanBody now retryInterval s u).submitted =
      s.submitted ++ (if specEligible s.activeTasks now retryInterval u then [u.id] else []) := by
  unfold scanBody specEligible
  rcases h : s.activeTasks.contains u.id with _ | _
  · rcases u.lastChecked with _ | lc
    · simp [h]
    · rcases lc with _ | t
      · simp [h]
      · rcases le_or_lt retryInterval (now - t) with hle | hlt
        · simp [h, hle, not_lt.mpr hle]
        · simp [h, hlt, not_le.mpr hlt]
  · simp [h]

lemma scanBody_warnings (now retryInterval : Int) (s : SchedState) (u : UserRec) :
    (scanBody now retryInterval s u).warnings =
      s.warnings ++ (if specWarned s.activeTasks u then [u.id] else []) := by
  unfold scanBody specWarned
  rcases h : s.activeTasks.contains u.id with _ | _
  · rcases u.lastChecked with _ | lc
    · simp [h]
    · rcases lc with _ | t
      · simp [h]
      · by_cases hlt : now - t < retryInterval <;> simp [h, hlt]
  · simp [h]

lemma scanLoop_submitted (now retryInterval : Int) (us : List UserRec)
    (s : SchedState) :
    (scanLoop now retryInterval s us).submitted =
      s.submitted ++
        (us.filter (fun u => specEligible s.activeTasks now retryInterval u)).map
          (fun u => u.id) := by
  induction us generalizing s with
  | nil => simp [scanLoop]
  | cons u rest ih =>
      rw [scanLoop, ih, scanBody_submitted, scanBody_activeTasks]
      rcases h : specEligible s.activeTasks now retryInterval u with _ | _
      · simp [List.filter, h]
      · simp [List.filter, h]

lemma scanLoop_warnings (now retryInterval : Int) (us : List UserRec)
    (s : SchedState) :
    (scanLoop now retryInterval s us).warnings =
      s.warnings ++
        (us.filter (fun u => specWarned s.activeTasks u)).map (fun u => u.id) := by
  induction us generalizing s with
  | nil => simp [scanLoop]
  | cons u rest ih =>
      rw [scanLoop, ih, scanBody_warnings, scanBody_activeTasks]
      rcases h : specWarned s.activeTasks u with _ | _
      · simp [List.filter, h]
      · simp [List.filter, h]

/-! ## CAPTCHA retry loop (`solve_captcha_with_retry`, app.py lines 224-308) -/

/-- Default of the `MAX_CAPTCHA_ATTEMPTS` environment variable. -/
def MAX_CAPTCHA_ATTEMPTS : Nat := 5

/-- What one CAPTCHA attempt observes.
`solverFail`: `solve_captcha` raised (refresh, continue);
`siteReject`: the error element is visible after submit (refresh, continue);
`attemptError`: an unexpected exception inside the attempt;
`accepted`: no error element, success. -/
inductive CaptchaOutcome where
  | solverFail
  | siteReject
  | attemptError
  | accepted
deriving Repr, DecidableEq

/-- Result of the retry phase: whether it succeeded, how many attempts
ran, and how many times the refresh button was clicked. -/
structure CaptchaResult where
  success : Bool
  attempts : Nat
  refreshes : Nat
deriving Repr, DecidableEq

/-- The `while attempt < max_attempts` loop.  `attempt` is the Python
counter, `remaining` is `maxAttempts - attempt` (the loop guard as
fuel).  Each iteration increments `attempt` first; a solver failure or
a site rejection clicks refresh and continues; an unexpected exception
continues while `attempt < max_attempts` and otherwise breaks;
acceptance sets `success = True` and breaks. -/
def solveCaptchaLoop (outcomes : Nat → CaptchaOutcome) (maxAttempts : Nat) :
    Nat → Nat → Nat → CaptchaResult
  | attempt, refreshes, 0 => ⟨false, attempt, refreshes⟩
  | attempt, refreshes, remaining + 1 =>
      let a := attempt + 1
      match outcomes a with
      | .accepted => ⟨true, a, refreshes⟩
      | .solverFail => solveCaptchaLoop outcomes maxAttempts a (refreshes + 1) remaining
      | .siteReject => solveCaptchaLoop outcomes maxAttempts a (refreshes + 1) remaining
      | .attemptError =>
          if a < maxAttempts then
            solveCaptchaLoop outcomes maxAttempts a refreshes remaining
          else ⟨false, a, refreshes⟩

/-- `solve_captcha_with_retry`: run the loop from `attempt = 0`. -/
def solveCaptchaWithRetry (outcomes : Nat → CaptchaOutcome)
    (maxAttempts : Nat := MAX_CAPTCHA_ATTEMPTS) : CaptchaResult :=
  solveCaptchaLoop outcomes maxAttempts 0 0 maxAttempts

lemma solveCaptchaLoop_allFail (outcomes : Nat → CaptchaOutcome)
    (hfail : ∀ n, outcomes n = .solverFail) (maxAttempts : Nat) :
    ∀ remaining attempt refreshes,
      solveCaptchaLoop outcomes maxAttempts attempt refreshes remaining =
        ⟨false, attempt + remaining, refreshes + remaining⟩ := by
  intro remaining
  induction remaining with
  | zero => intro attempt refreshes; rfl
  | succ k ih =>
      intro attempt refreshes
      rw [solveCaptchaLoop]
      simp only [hfail]
      rw [ih]
      simp only [CaptchaResult.mk.injEq]
      refine ⟨trivial, by omega, by omega⟩

/-! ## One automation run (`run_automation`, `book_appointment`,
`process_user`, app.py lines 168-222, 440-528) -/

/-- Observable database / notification side effects of one run:
the values successively written to the user's `status` column, the
number of notification emails sent, and the number of `last_checked`
updates. -/
structure RunEffects where
  statusWrites : List Int
  emailsSent : Nat
  lastCheckedUpdates : Nat
deriving Repr, DecidableEq

/-- Environment oracle for one run: which fallible steps succeed.
`initRaises`: `VisaBot(user_data)` itself raises (e.g. a missing key);
`driverLaunchOk`: `Driver(...)` and the initial navigation succeed;
`loginOk`: the login phase (including CAPTCHA retry) returns `True`;
`securityOk`: `fill_security_questions` returns `True`;
`navigateOk`: the reschedule element is reached (first wait, or the
refresh-and-retry wait) and clicked;
`locationSelectOk`: `select_by_visible_text(consular_post)` and the
waits before it succeed;
`submitEnabled`: `#submitbtn:not([disabled])` becomes visible within
the 15-second wait. -/
structure RunEnv where
  initRaises : Bool
  driverLaunchOk : Bool
  loginOk : Bool
  securityOk : Bool
  navigateOk : Bool
  locationSelectOk : Bool
  submitEnabled : Bool
deriving Repr, DecidableEq

/-- `book_appointment`.  The whole body is wrapped in
`try ... except Exception: return False`.  If the location selection
raises, the outer handler returns `False`.  If the 15-second wait for
`#submitbtn:not([disabled])` succeeds, `submit_record` is a (truthy)
element: the code clicks it, sends the email, writes status 1 and
returns `True`.  If that wait times out, the inner bare `except` only
prints, so the following `if submit_record:` line raises
`UnboundLocalError` (`submit_record` was never assigned), which the
outer handler catches: the function returns `False` — the
`else`/"no appointments" branch is unreachable. -/
def bookAppointment (env : RunEnv) (eff : RunEffects) : Bool × RunEffects :=
  if !env.locationSelectOk then (false, eff)
  else if env.submitEnabled then
    (true, { eff with emailsSent := eff.emailsSent + 1,
                      statusWrites := eff.statusWrites ++ [1] })
  else (false, eff)

/-- Result of `run_automation`/`process_user`: the `active_tasks` keys
after the cleanup, the accumulated effects, and whether an appointment
was booked. -/
structure RunResult where
  activeTasks : List Nat
  eff : RunEffects
  found : Bool
deriving Repr, DecidableEq

/-- The `try` block of `run_automation` after the initial
`update_status(0)`: each failed phase raises (`Except.error` carries
the effects accumulated at the raise point); otherwise
`book_appointment` runs and the block completes. -/
def runAutomationBody (env : RunEnv) (eff : RunEffects) :
    Except RunEffects (Bool × RunEffects) :=
  if !env.driverLaunchOk then .error eff
  else if !env.loginOk then .error eff
  else if !env.securityOk then .error eff
  else if !env.navigateOk then .error eff
  else .ok (bookAppointment env eff)

/-- The `finally` block's `if self.user_id in active_tasks: del
active_tasks[self.user_id]`. -/
def removeActive (active : List Nat) (userId : Nat) : List Nat :=
  if active.contains userId then active.filter (fun i => i != userId) else active

/-- `run_automation`: write status 0, run the body; on success or on a
caught exception update `last_checked`; the `finally` block always
removes the user from `active_tasks`. -/
def runAutomation (env : RunEnv) (userId : Nat) (active : List Nat) : RunResult :=
  let eff0 : RunEffects := { statusWrites := [0], emailsSent := 0, lastCheckedUpdates := 0 }
  match runAutomationBody env eff0 with
  | .ok (found, eff) =>
      { activeTasks := removeActive active userId,
        eff := { eff with lastCheckedUpdates := eff.lastCheckedUpdates + 1 },
        found := found }
  | .error eff =>
      { activeTasks := removeActive active userId,
        eff := { eff with lastCheckedUpdates := eff.lastCheckedUpdates + 1 },
        found := false }

/-- `process_user`: return immediately when the id is already active;
otherwise insert `user_id` into `active_tasks` and run; if `VisaBot`
construction raises, the `except` block deletes the entry. -/
def processUser (env : RunEnv) (userId : Nat) (active : List Nat) : RunResult :=
  if active.contains userId then
    { activeTasks := active, eff := ⟨[], 0, 0⟩, found := false }
  else if env.initRaises then
    { activeTasks := removeActive (active ++ [userId]) userId,
      eff := ⟨[], 0, 0⟩, found := false }
  else
    runAutomation env userId (active ++ [userId])

/-- Replaying a list of `status` column writes over an initial value. -/
def applyStatusWrites (s : Int) (ws : List Int) : Int :=
  ws.foldl (fun _ w => w) s

/-! ## The `/update-status` endpoint (app.py lines 637-657) -/

/-- A database row as the endpoint sees it. -/
structure DbRec where
  id : Nat
  status : Int
deriving Repr, DecidableEq

/-- `update_status` route: `update({'status': status}).eq('id', user_id)` —
write the client-supplied status to every row with the given id,
unconditionally. -/
def updateStatusEndpoint (db : List DbRec) (userId : Nat) (status : Int) :
    List DbRec :=
  db.map (fun r => if r.id == userId then { r with status := status } else r)

/-! ## Injected calendar patch (`inject_appointment_booking_script`,
app.py lines 310-405) -/

/-- One element of the `data` array handed to `populateCalendar`:
`ID` and `Date` (dates modelled as integers on a common timeline, with
`check_days` expressed in the same unit). -/
structure DayItem where
  idNum : Nat
  date : Int
deriving Repr, DecidableEq

/-- The patched filter: `dt >= today && dt <= limitDate` with
`limitDate = today + daysLimit`. -/
def filterAvailable (today checkDays : Int) (data : List DayItem) : List DayItem :=
  data.filter (fun item => today ≤ item.date && item.date ≤ today + checkDays)

/-- Insertion step of the ascending sort by `Date` the script performs
(`filtered.sort((a, b) => Date(a) - Date(b))`). -/
def insertByDate (x : DayItem) : List DayItem → List DayItem
  | [] => [x]
  | y :: ys => if x.date ≤ y.date then x :: y :: ys else y :: insertByDate x ys

/-- Ascending sort by `Date`. -/
def sortByDate : List DayItem → List DayItem
  | [] => []
  | x :: xs => insertByDate x (sortByDate xs)

/-- The patched `populateCalendar`: filter to the window, and when any
date survives auto-select `filtered.sort(...)[0]`, the earliest one. -/
def populateCalendarPatch (today checkDays : Int) (data : List DayItem) :
    List DayItem × Option DayItem :=
  let filtered := filterAvailable today checkDays data
  (filtered, if filtered.length > 0 then (sortByDate filtered).head? else none)

/-! ## Consular post defaults (app.py lines 179-184 and 604-616) -/

/-- `receive_data`: `data.get('consular_post', 'ABU DHABI')` — the value
stored for a registration request (`none` = key absent). -/
def receiveDataConsularPost (requestField : Option String) : String :=
  requestField.getD "ABU DHABI"

/-- `book_appointment`: `self.user_data.get('consular_post', '')` — the
visible text selected in the location dropdown (`none` = key absent in
the user record). -/
def bookAppointmentConsularPost (recordField : Option String) : String :=
  recordField.getD ""

/-! ## `send_email` (email_sender.py lines 11-43) -/

/-- Environment oracle for one `send_email` call.  `fromEmail` /
`emailPassword` are the `FROM_EMAIL` / `EMAIL_PASSWORD` variables
(`none` = unset); `smtpPortOk`: `int(os.getenv('SMTP_PORT', '587'))`
does not raise; `mimeOk`: building the MIME message does not raise;
`smtpOk`: the SMTP connect/starttls/login/sendmail session succeeds. -/
structure EmailEnv where
  smtpPortOk : Bool
  fromEmail : Option String
  emailPassword : Option String
  mimeOk : Bool
  smtpOk : Bool
deriving Repr, DecidableEq

/-- Python falsiness of an optional env string: `not x` is true for
`None` and for the empty string. -/
def strFalsy : Option String → Bool
  | none => true
  | some s => s == ""

/-- The `try` block of `send_email`.  First component: `.ok b` when the
block returns `b`, `.error msg` when it raises; second component:
whether an SMTP network send was attempted. -/
def sendEmailBody (env : EmailEnv) : Except String Bool × Bool :=
  if !env.smtpPortOk then (.error "invalid SMTP_PORT", false)
  else if strFalsy env.fromEmail || strFalsy env.emailPassword then (.ok false, false)
  else if !env.mimeOk then (.error "message build failed", false)
  else if env.smtpOk then (.ok true, true)
  else (.error "SMTP session failed", true)

/-- `send_email`: the surrounding `except Exception` maps every raised
exception to the return value `False`.  Result: (returned boolean,
whether a network send was attempted). -/
def sendEmail (env : EmailEnv) : Bool × Bool :=
  match sendEmailBody env with
  | (.ok b, att) => (b, att)
  | (.error _, att) => (false, att)

/-! ## Claim theorems -/

/-- Claim C1, counterexample.  The claim says every eligible record's id
is inserted into the active-task set before the task is submitted, so a
second tick between scan and dispatch can never select the same user
again.  In the code `scan_and_process_users` only calls
`executor.submit` and never writes `active_tasks` (the insert happens
later, inside `process_user` on the worker thread), so after a tick that
submitted user 1 the active-task set is still empty and a second tick
submits user 1 again. -/
theorem c1_reserve_before_submit_counterexample :
    (scanAndProcessUsers [⟨1, 0, none⟩] 1000 30 ⟨[], [], []⟩).activeTasks = [] ∧
    (scanAndProcessUsers [⟨1, 0, none⟩] 1000 30 ⟨[], [], []⟩).submitted = [1] ∧
    (scanAndProcessUsers [⟨1, 0, none⟩] 1000 30
        (scanAndProcessUsers [⟨1, 0, none⟩] 1000 30 ⟨[], [], []⟩)).submitted = [1, 1] := by
  refine ⟨rfl, rfl, rfl⟩

/-- Claim C1, amended.  The scheduler tick itself performs no
reservation: `scan_and_process_users` leaves the active-task set
unchanged, so duplicate submissions of the same user across ticks are
possible.  The reservation instead happens inside `process_user` on the
worker thread: a task whose user id is already in the active-task set
returns without starting a run, and otherwise the id is inserted before
`run_automation` is invoked. -/
theorem c1_reserve_before_submit_amended :
    (∀ (db : List UserRec) (now retryInterval : Int) (s : SchedState),
        (scanAndProcessUsers db now retryInterval s).activeTasks = s.activeTasks) ∧
    (∀ (env : RunEnv) (userId : Nat) (active : List Nat),
        active.contains userId = true →
        processUser env userId active = ⟨active, ⟨[], 0, 0⟩, false⟩) ∧
    (∀ (env : RunEnv) (userId : Nat) (active : List Nat),
        active.contains userId = false → env.initRaises = false →
        processUser env userId active = runAutomation env userId (active ++ [userId])) := by
  refine ⟨?_, ?_, ?_⟩
  · intro db now r s
    exact scanLoop_activeTasks now r _ s
  · intro env userId active h
    have hm : userId ∈ active := by simpa using h
    unfold processUser
    simp [hm]
  · intro env userId active h hinit
    have hm : userId ∉ active := by simpa using h
    unfold processUser
    simp [hm, hinit]

/-- Claim C1, witness for the amended theorem at concrete inputs. -/
theorem c1_reserve_before_submit_amended_witness :
    (scanAndProcessUsers [⟨1, 0, none⟩] 2000 30 ⟨[], [], []⟩).activeTasks = [] ∧
    ([5] : List Nat).contains 5 = true ∧
    processUser ⟨false, true, true, true, true, true, false⟩ 5 [5] =
      ⟨[5], ⟨[], 0, 0⟩, false⟩ :=
  ⟨c1_reserve_before_submit_amended.1 [⟨1, 0, none⟩] 2000 30 ⟨[], [], []⟩,
   by decide,
   c1_reserve_before_submit_amended.2.1 ⟨false, true, true, true, true, true, false⟩ 5 [5]
     (by decide)⟩

/-- Claim C2: when the solver fails on every attempt, the CAPTCHA retry
phase returns failure after exactly `maxAttempts` attempts (default
`MAX_CAPTCHA_ATTEMPTS = 5`), and every solver failure clicked the
refresh button and consumed one attempt rather than aborting the run. -/
theorem c2_captcha_exhaustion (outcomes : Nat → CaptchaOutcome) (maxAttempts : Nat)
    (hfail : ∀ n, outcomes n = CaptchaOutcome.solverFail) :
    solveCaptchaWithRetry outcomes maxAttempts =
      ⟨false, maxAttempts, maxAttempts⟩ := by
  unfold solveCaptchaWithRetry
  rw [solveCaptchaLoop_allFail outcomes hfail maxAttempts]
  simp

/-- Claim C2, witness: the always-failing solver at the default bound. -/
theorem c2_captcha_exhaustion_witness :
    (∀ n : Nat, (fun _ : Nat => CaptchaOutcome.solverFail) n = CaptchaOutcome.solverFail) ∧
    solveCaptchaWithRetry (fun _ => CaptchaOutcome.solverFail) MAX_CAPTCHA_ATTEMPTS =
      ⟨false, 5, 5⟩ :=
  ⟨fun _ => rfl,
   c2_captcha_exhaustion (fun _ => CaptchaOutcome.solverFail) MAX_CAPTCHA_ATTEMPTS
     (fun _ => rfl)⟩

/-- Claim C3, counterexample to the stated boundary.  The claim selects
a record only when `last_checked` is strictly more than
`RETRY_INTERVAL` seconds in the past, but the code skips only when
`now - last_checked < RETRY_INTERVAL`: at exactly `RETRY_INTERVAL`
seconds (here 1000 - 970 = 30 = RETRY_INTERVAL) the record IS selected
although it is not more than 30 seconds old. -/
theorem c3_due_boundary_counterexample :
    (scanAndProcessUsers [⟨1, 0, some (some 970)⟩] 1000 30 ⟨[], [], []⟩).submitted = [1] ∧
    ¬ ((1000 : Int) - 970 > 30) :=
  ⟨rfl, by decide⟩

lemma specEligible_iff (active : List Nat) (now r : Int) (u : UserRec) :
    specEligible active now r u = true ↔
      (active.contains u.id = false ∧
        (u.lastChecked = none ∨ u.lastChecked = some none ∨
         ∃ t, u.lastChecked = some (some t) ∧ r ≤ now - t)) := by
  unfold specEligible
  rcases h : active.contains u.id with _ | _
  · rcases hl : u.lastChecked with _ | lc
    · simp
    · rcases lc with _ | t
      · simp
      · simp
  · simp

lemma specWarned_iff (active : List Nat) (u : UserRec) :
    specWarned active u = true ↔
      (active.contains u.id = false ∧ u.lastChecked = some none) := by
  unfold specWarned
  rcases h : active.contains u.id with _ | _
  · rcases hl : u.lastChecked with _ | lc
    · simp
    · rcases lc with _ | t
      · simp
      · simp
  · simp

/-- Claim C3, amended.  A status-0 record is selected in a tick iff it
is not in the active-task set and its `last_checked` is absent,
unparsable (in which case a warning is also logged), or at least
`RETRY_INTERVAL` seconds in the past (the code's skip test is strict
`<`, so the boundary instant counts as due); a parsable `last_checked`
strictly within `RETRY_INTERVAL` seconds of now is never selected. -/
theorem c3_due_selection (u : UserRec) (active : List Nat) (now r : Int)
    (hstatus : u.status = 0) :
    ((scanAndProcessUsers [u] now r ⟨active, [], []⟩).submitted = [u.id] ↔
      (active.contains u.id = false ∧
        (u.lastChecked = none ∨ u.lastChecked = some none ∨
         ∃ t, u.lastChecked = some (some t) ∧ r ≤ now - t))) ∧
    ((scanAndProcessUsers [u] now r ⟨active, [], []⟩).warnings = [u.id] ↔
      (active.contains u.id = false ∧ u.lastChecked = some none)) ∧
    (∀ t, u.lastChecked = some (some t) → now - t < r →
      (scanAndProcessUsers [u] now r ⟨active, [], []⟩).submitted = []) := by
  have hq : List.filter (fun v : UserRec => v.status == 0) [u] = [u] := by
    simp [List.filter, hstatus]
  have hsub : (scanAndProcessUsers [u] now r ⟨active, [], []⟩).submitted =
      (List.filter (fun v => specEligible active now r v) [u]).map (fun v => v.id) := by
    unfold scanAndProcessUsers
    rw [hq, scanLoop_submitted]
    simp
  have hwarn : (scanAndProcessUsers [u] now r ⟨active, [], []⟩).warnings =
      (List.filter (fun v => specWarned active v) [u]).map (fun v => v.id) := by
    unfold scanAndProcessUsers
    rw [hq, scanLoop_warnings]
    simp
  refine ⟨?_, ?_, ?_⟩
  · rw [hsub, ← specEligible_iff active now r u]
    rcases h : specEligible active now r u with _ | _
    · simp [List.filter, h]
    · simp [List.filter, h]
  · rw [hwarn, ← specWarned_iff active u]
    rcases h : specWarned active u with _ | _
    · simp [List.filter, h]
    · simp [List.filter, h]
  · intro t ht hlt
    rw [hsub]
    have h : specEligible active now r u = false := by
      unfold specEligible
      rw [ht]
      simp [not_le.mpr hlt]
    simp [List.filter, h]

/-- Claim C3, witness for the amended theorem at a concrete record. -/
theorem c3_due_selection_witness :
    (⟨7, 0, some (some 0)⟩ : UserRec).status = 0 ∧
    (scanAndProcessUsers [⟨7, 0, some (some 0)⟩] 100 30 ⟨[], [], []⟩).submitted = [7] :=
  ⟨rfl,
   (c3_due_selection ⟨7, 0, some (some 0)⟩ [] 100 30 rfl).1.mpr
     ⟨rfl, Or.inr (Or.inr ⟨0, rfl, by decide⟩)⟩⟩

/-- Claim C7: a user all of whose database rows have status 1 is never
dispatched by a scheduler tick — the scan queries only rows with
`status == 0`, so the booked state is terminal for dispatch. -/
theorem c7_status_one_never_dispatched (db : List UserRec) (now r : Int)
    (s : SchedState) (i : Nat)
    (hdb : ∀ u ∈ db, u.id = i → u.status = 1)
    (hsub : i ∉ s.submitted) :
    i ∉ (scanAndProcessUsers db now r s).submitted := by
  unfold scanAndProcessUsers
  rw [scanLoop_submitted]
  intro hmem
  rcases List.mem_append.mp hmem with h1 | h2
  · exact hsub h1
  · rcases List.mem_map.mp h2 with ⟨u, hu, hid⟩
    rcases List.mem_filter.mp hu with ⟨hu0, _⟩
    rcases List.mem_filter.mp hu0 with ⟨hudb, hstat⟩
    have h1 := hdb u hudb hid
    have h0 : u.status = 0 := by simpa using hstat
    omega

/-- Claim C7, witness: a concrete status-1 row is not submitted. -/
theorem c7_status_one_never_dispatched_witness :
    (∀ u ∈ [(⟨3, 1, none⟩ : UserRec)], u.id = 3 → u.status = 1) ∧
    (3 : Nat) ∉ ([] : List Nat) ∧
    (3 : Nat) ∉ (scanAndProcessUsers [⟨3, 1, none⟩] 1000 30 ⟨[], [], []⟩).submitted :=
  ⟨by decide, by decide,
   c7_status_one_never_dispatched [⟨3, 1, none⟩] 1000 30 ⟨[], [], []⟩ 3
     (by decide) (by decide)⟩

lemma bookAppointment_noSlot (env : RunEnv) (hloc : env.locationSelectOk = true)
    (hsubmit : env.submitEnabled = false) (eff : RunEffects) :
    bookAppointment env eff = (false, eff) := by
  unfold bookAppointment
  simp [hloc, hsubmit]

/-- Claim C4: when the submit control does not become enabled within the
bounded 15-second wait (and the phases before it succeed),
`book_appointment` returns `False` without raising, no email is sent,
the only status write of the run is the initial 0 (so a status-0 record
stays at 0), and `last_checked` is still updated once at the end of the
run. -/
theorem c4_no_slot_outcome (env : RunEnv) (userId : Nat) (active : List Nat)
    (hd : env.driverLaunchOk = true) (hl : env.loginOk = true)
    (hs : env.securityOk = true) (hn : env.navigateOk = true)
    (hloc : env.locationSelectOk = true) (hsubmit : env.submitEnabled = false) :
    (∀ eff, bookAppointment env eff = (false, eff)) ∧
    (runAutomation env userId active).found = false ∧
    (runAutomation env userId active).eff.emailsSent = 0 ∧
    (runAutomation env userId active).eff.statusWrites = [0] ∧
    applyStatusWrites 0 (runAutomation env userId active).eff.statusWrites = 0 ∧
    (runAutomation env userId active).eff.lastCheckedUpdates = 1 := by
  have hb := bookAppointment_noSlot env hloc hsubmit
  have hrun : runAutomation env userId active =
      ⟨removeActive active userId, ⟨[0], 0, 1⟩, false⟩ := by
    unfold runAutomation runAutomationBody
    simp [hd, hl, hs, hn, hb]
  exact ⟨hb, by rw [hrun], by rw [hrun], by rw [hrun], by rw [hrun]; rfl, by rw [hrun]⟩

/-- Claim C4, witness at a concrete environment. -/
theorem c4_no_slot_outcome_witness :
    (runAutomation ⟨false, true, true, true, true, true, false⟩ 9 [9]).found = false ∧
    (runAutomation ⟨false, true, true, true, true, true, false⟩ 9 [9]).eff.emailsSent = 0 ∧
    (runAutomation ⟨false, true, true, true, true, true, false⟩ 9 [9]).eff.statusWrites = [0] ∧
    applyStatusWrites 0
      (runAutomation ⟨false, true, true, true, true, true, false⟩ 9 [9]).eff.statusWrites = 0 ∧
    (runAutomation ⟨false, true, true, true, true, true, false⟩ 9 [9]).eff.lastCheckedUpdates = 1 := by
  have h := c4_no_slot_outcome ⟨false, true, true, true, true, true, false⟩ 9 [9]
    rfl rfl rfl rfl rfl rfl
  exact ⟨h.2.1, h.2.2.1, h.2.2.2.1, h.2.2.2.2.1, h.2.2.2.2.2⟩

/-- Claim C6, counterexample.  The `/update-status` route writes the
client-supplied status unconditionally: posting `status = 0` for a user
whose row has status 1 reverts the row to 0, so the system does have an
operation that writes 0 to a status-1 record. -/
theorem c6_status_revert_counterexample :
    (⟨1, 1⟩ : DbRec).status = 1 ∧
    updateStatusEndpoint [⟨1, 1⟩] 1 0 = [⟨1, 0⟩] :=
  ⟨rfl, rfl⟩

lemma runAutomation_statusWrites (env : RunEnv) (userId : Nat) (active : List Nat) :
    (runAutomation env userId active).eff.statusWrites = [0] ∨
    (runAutomation env userId active).eff.statusWrites = [0, 1] := by
  rcases env with ⟨i, d, l, s, n, loc, sub⟩
  unfold runAutomation runAutomationBody bookAppointment
  cases d <;> cases l <;> cases s <;> cases n <;> cases loc <;> cases sub <;> simp

/-- Claim C6, amended.  The automation paths themselves never revert:
a dispatched run's status writes are exactly `[0]` (start marker on a
record that was dispatched at status 0) or `[0, 1]` (booking success),
and a skipped duplicate dispatch writes nothing — so no automation path
writes 0 after a 1.  The reversion in the counterexample is only
reachable through the `/update-status` HTTP endpoint, which writes the
client-supplied status unconditionally. -/
theorem c6_status_transitions_amended (env : RunEnv) (userId : Nat) (active : List Nat) :
    (processUser env userId active).eff.statusWrites = [] ∨
    (processUser env userId active).eff.statusWrites = [0] ∨
    (processUser env userId active).eff.statusWrites = [0, 1] := by
  unfold processUser
  by_cases hm : userId ∈ active
  · rw [if_pos (by simpa using hm)]
    exact Or.inl rfl
  · rw [if_neg (by simpa using hm)]
    by_cases hi : env.initRaises = true
    · rw [if_pos hi]
      exact Or.inl rfl
    · rw [if_neg hi]
      exact Or.inr (runAutomation_statusWrites env userId (active ++ [userId]))

lemma not_mem_removeActive (l : List Nat) (i : Nat) : i ∉ removeActive l i := by
  unfold removeActive
  split
  · intro hmem
    have h := List.mem_filter.mp hmem
    simp at h
  · rename_i hc
    simpa using hc

lemma runAutomation_activeTasks (env : RunEnv) (userId : Nat) (active : List Nat) :
    (runAutomation env userId active).activeTasks = removeActive active userId := by
  unfold runAutomation
  cases h : runAutomationBody env ⟨[0], 0, 0⟩ with
  | error eff => simp [h]
  | ok p => rcases p with ⟨found, eff⟩; simp [h]

/-- Claim C8: every terminating run removes the user's entry from the
active-task set by the time cleanup completes — whether the run books,
finds no slot, fails a phase, raises partway (any combination of
oracle outcomes), or even fails inside `VisaBot` construction. -/
theorem c8_active_task_removed (env : RunEnv) (userId : Nat) (active : List Nat)
    (h : userId ∉ active) :
    userId ∉ (processUser env userId active).activeTasks := by
  unfold processUser
  rw [if_neg (by simpa using h)]
  by_cases hi : env.initRaises = true
  · rw [if_pos hi]
    exact not_mem_removeActive _ _
  · rw [if_neg hi, runAutomation_activeTasks]
    exact not_mem_removeActive _ _

/-- Claim C8, witness: a run that raises during construction at a
concrete input still leaves no active-task entry. -/
theorem c8_active_task_removed_witness :
    (4 : Nat) ∉ ([] : List Nat) ∧
    (4 : Nat) ∉ (processUser ⟨true, false, false, false, false, false, false⟩ 4 []).activeTasks :=
  ⟨by decide,
   c8_active_task_removed ⟨true, false, false, false, false, false, false⟩ 4 []
     (by decide)⟩

lemma mem_insertByDate (x a : DayItem) (l : List DayItem) :
    a ∈ insertByDate x l ↔ a = x ∨ a ∈ l := by
  induction l with
  | nil => simp [insertByDate]
  | cons y ys ih =>
      unfold insertByDate
      split
      · simp [List.mem_cons]
      · simp only [List.mem_cons, ih]
        tauto

lemma mem_sortByDate (a : DayItem) (l : List DayItem) :
    a ∈ sortByDate l ↔ a ∈ l := by
  induction l with
  | nil => simp [sortByDate]
  | cons x xs ih => simp [sortByDate, mem_insertByDate, ih, List.mem_cons]

lemma sortByDate_head_min (l : List DayItem) :
    ∀ e : DayItem, (sortByDate l).head? = some e → ∀ a ∈ l, e.date ≤ a.date := by
  induction l with
  | nil => intro e h; simp [sortByDate] at h
  | cons x xs ih =>
      intro e h
      rw [sortByDate] at h
      cases hm : sortByDate xs with
      | nil =>
          rw [hm] at h
          unfold insertByDate at h
          have hex : e = x := by
            simpa using h.symm
          intro a ha
          rcases List.mem_cons.mp ha with rfl | ha'
          · exact le_of_eq (congrArg DayItem.date hex)
          · exact absurd ((mem_sortByDate a xs).mpr ha') (by simp [hm])
      | cons y ys =>
          have hy : ∀ a ∈ xs, y.date ≤ a.date := ih y (by rw [hm]; rfl)
          rw [hm] at h
          unfold insertByDate at h
          by_cases hxy : x.date ≤ y.date
          · rw [if_pos hxy] at h
            have hex : e = x := by simpa using h.symm
            subst hex
            intro a ha
            rcases List.mem_cons.mp ha with rfl | ha'
            · exact le_refl _
            · exact le_trans hxy (hy a ha')
          · rw [if_neg hxy] at h
            have hey : e = y := by simpa using h.symm
            subst hey
            intro a ha
            rcases List.mem_cons.mp ha with rfl | ha'
            · exact le_of_lt (lt_of_not_le hxy)
            · exact hy a ha'

lemma head?_mem {α : Type} (l : List α) (e : α) (h : l.head? = some e) : e ∈ l := by
  cases l with
  | nil => simp at h
  | cons x xs =>
      have hex : x = e := by simpa using h
      subst hex
      exact List.mem_cons_self _ _

/-- Claim C5: for every candidate date list and every `check_days`
value, exactly the dates in `[now, now + check_days]` survive the
injected filter, and when any survive the patched `populateCalendar`
auto-selects one of the survivors with the earliest date. -/
theorem c5_calendar_filter (today checkDays : Int) (data : List DayItem) :
    (∀ item, item ∈ (populateCalendarPatch today checkDays data).1 ↔
      (item ∈ data ∧ today ≤ item.date ∧ item.date ≤ today + checkDays)) ∧
    ((populateCalendarPatch today checkDays data).1 ≠ [] →
      ∃ e, (populateCalendarPatch today checkDays data).2 = some e ∧
        e ∈ (populateCalendarPatch today checkDays data).1 ∧
        ∀ item ∈ (populateCalendarPatch today checkDays data).1, e.date ≤ item.date) := by
  constructor
  · intro item
    simp [populateCalendarPatch, filterAvailable, List.mem_filter, and_assoc]
  · intro hne
    have hne1 : filterAvailable today checkDays data ≠ [] := hne
    cases hs : sortByDate (filterAvailable today checkDays data) with
    | nil =>
        exfalso
        rcases List.exists_mem_of_ne_nil _ hne1 with ⟨x, hx⟩
        have : x ∈ sortByDate (filterAvailable today checkDays data) :=
          (mem_sortByDate x _).mpr hx
        rw [hs] at this
        simp at this
    | cons e es =>
        have hhead : (sortByDate (filterAvailable today checkDays data)).head? = some e := by
          rw [hs]; rfl
        have hlen : (filterAvailable today checkDays data).length > 0 := by
          cases hfa : filterAvailable today checkDays data with
          | nil => exact absurd hfa hne1
          | cons a as => simp
        refine ⟨e, ?_, ?_, ?_⟩
        · show (if (filterAvailable today checkDays data).length > 0 then
              (sortByDate (filterAvailable today checkDays data)).head? else none) = some e
          rw [if_pos hlen, hhead]
        · exact (mem_sortByDate e _).mp (head?_mem _ e hhead)
        · exact sortByDate_head_min _ e hhead

/-- Claim C5, witness at a concrete mixed in/out-of-window list. -/
theorem c5_calendar_filter_witness :
    (populateCalendarPatch 0 30 [⟨1, 40⟩, ⟨2, 10⟩, ⟨3, -5⟩, ⟨4, 20⟩]).1 ≠ [] ∧
    ∃ e, (populateCalendarPatch 0 30 [⟨1, 40⟩, ⟨2, 10⟩, ⟨3, -5⟩, ⟨4, 20⟩]).2 = some e ∧
      e ∈ (populateCalendarPatch 0 30 [⟨1, 40⟩, ⟨2, 10⟩, ⟨3, -5⟩, ⟨4, 20⟩]).1 ∧
      ∀ item ∈ (populateCalendarPatch 0 30 [⟨1, 40⟩, ⟨2, 10⟩, ⟨3, -5⟩, ⟨4, 20⟩]).1,
        e.date ≤ item.date :=
  ⟨by decide, (c5_calendar_filter 0 30 [⟨1, 40⟩, ⟨2, 10⟩, ⟨3, -5⟩, ⟨4, 20⟩]).2 (by decide)⟩

/-- Claim C9, evaluation at the failing input.  `receive_data` does
store "ABU DHABI" for a registration without `consular_post`, but
`book_appointment` reads the field with `.get('consular_post', '')`:
for a record lacking the field it selects the empty string in the
dropdown, not "ABU DHABI" as the claim (and the code's own comment on
that line) says. -/
theorem c9_consular_post_default :
    receiveDataConsularPost none = "ABU DHABI" ∧
    bookAppointmentConsularPost none = "" ∧
    bookAppointmentConsularPost none ≠ "ABU DHABI" :=
  ⟨rfl, rfl, by decide⟩

/-- Claim C10: `send_email` always returns a boolean and never lets an
exception escape (every raise inside the body is mapped to `False`);
with unconfigured (absent or empty) sender email or password it returns
`False` without attempting a network send; and it returns `True` exactly
when the credentials are configured and every build/send step
succeeds. -/
theorem c10_send_email_total (env : EmailEnv) :
    ((strFalsy env.fromEmail || strFalsy env.emailPassword) = true →
      sendEmail env = (false, false)) ∧
    (∀ msg, (sendEmailBody env).1 = Except.error msg → (sendEmail env).1 = false) ∧
    ((sendEmail env).1 = true ↔
      (env.smtpPortOk = true ∧
       (strFalsy env.fromEmail || strFalsy env.emailPassword) = false ∧
       env.mimeOk = true ∧ env.smtpOk = true)) := by
  rcases env with ⟨port, fe, pw, mime, smtp⟩
  refine ⟨?_, ?_, ?_⟩ <;>
    · unfold sendEmail sendEmailBody
      cases port <;> cases mime <;> cases smtp <;>
        cases hc : (strFalsy fe || strFalsy pw) <;> simp [hc]

/-- Claim C10, witness: missing sender address at a concrete input. -/
theorem c10_send_email_total_witness :
    (strFalsy none || strFalsy (some "pw")) = true ∧
    sendEmail ⟨true, none, some "pw", true, true⟩ = (false, false) :=
  ⟨rfl, (c10_send_email_total ⟨true, none, some "pw", true, true⟩).1 rfl⟩

end VisaBot
